import Mathlib

/-!
Verification development for the results-lookup widget
(`src/components/ResultsChecker.tsx`).

The development shallowly embeds the class-enumeration scanner
(`fetchClassResults`), the identifier synthesis (lines 142-143), the
subject-column joiner (`classSubjects`), and the CSV exporter
(`exportClassResultsCSV`).  JavaScript numbers are modelled as `Rat`
(every numeric value exercised here is an exact decimal), fallible
network I/O is modelled by an oracle mapping each probed identifier to a
`ProbeResponse`, and the `while` loop is modelled by a fuel-indexed
structural recursion with enough fuel (`MAX_STUDENTS + 1`) to cover
every reachable iteration; a lemma below shows the loop condition is
always false at the returned state, i.e. the fuel never runs out.
-/

/-- Mirrors the `Subject.subject` nested object of the source interface. -/
structure SubjectRef where
  subjectName : String
deriving Repr, DecidableEq

/-- Mirrors the `Subject` interface of the source. -/
structure Subject where
  subject : SubjectRef
  subjectWeightedPercent : Rat
  markPercent : Rat
  letterGrade : String
  subjectId : String
deriving Repr, DecidableEq

/-- Mirrors the `StudentResult` interface of the source.  Optional fields
of the TypeScript interface become `Option`. -/
structure StudentResult where
  studentNames : String
  studentIndexNumber : String
  studentNationalId : Option String
  academicYear : String
  attendedSchool : Option String
  weightedPercent : Rat
  division : String
  combination : Option String
  rawMark : List Subject
  placedSchoolName : Option String
  placedCombinationName : Option String
deriving Repr, DecidableEq

/-- The `MAX_CONSECUTIVE_EMPTY` constant of `fetchClassResults` (line 138). -/
def MAX_CONSECUTIVE_EMPTY : Nat := 20

/-- The `MAX_STUDENTS` constant of `fetchClassResults` (line 139). -/
def MAX_STUDENTS : Nat := 1000

/-- Outcome of one probe, as distinguished by the source loop body:
`httpFail` is a response with `!res.ok`; `netError` is a thrown
fetch/json error (the `catch` branch); `body d` is an ok response whose
decoded JSON is `d` (`none` models a null/record-free payload). -/
inductive ProbeResponse where
  | httpFail
  | netError
  | body (data : Option StudentResult)
deriving Repr, DecidableEq

/-- Models `String.prototype.padStart(targetLen, pad)` for a single-character
pad string, as used on line 142. -/
def padStart (s : String) (targetLen : Nat) (pad : Char) : String :=
  if targetLen ≤ s.length then s
  else String.mk (List.replicate (targetLen - s.length) pad) ++ s

/-- Models `String.prototype.toUpperCase()` on the ASCII level codes used here:
upper-case every character. -/
def jsToUpper (s : String) : String := String.mk (s.data.map Char.toUpper)

/-- Identifier synthesis, lines 142-143 of the source:
`schoolCode + levelCode.toUpperCase() + String(seq).padStart(3, "0") + examYear`. -/
def synthesize (schoolCode levelCode examYear : String) (seq : Nat) : String :=
  schoolCode ++ jsToUpper levelCode ++ padStart (toString seq) 3 '0' ++ examYear

/-- Mutable state of the scan loop (lines 135-137), extended with a
`requests` counter that counts the `fetch` calls issued. -/
structure ScanState where
  results : List StudentResult
  seq : Nat
  emptyCount : Nat
  requests : Nat
deriving Repr, DecidableEq

/-- One iteration of the loop body (lines 144-164).  Every branch of the
source issues exactly one `fetch` and increments `seq` exactly once
(the `!res.ok` branch increments before its `continue`; all others fall
through to the `seq++` on line 164). -/
def scanStep (resp : ProbeResponse) (st : ScanState) : ScanState :=
  match resp with
  | .httpFail =>
      { st with emptyCount := st.emptyCount + 1, seq := st.seq + 1,
                requests := st.requests + 1 }
  | .netError =>
      { st with emptyCount := st.emptyCount + 1, seq := st.seq + 1,
                requests := st.requests + 1 }
  | .body none =>
      { st with emptyCount := st.emptyCount + 1, seq := st.seq + 1,
                requests := st.requests + 1 }
  | .body (some data) =>
      if data.studentNames ≠ "" then
        { st with results := st.results ++ [data], emptyCount := 0,
                  seq := st.seq + 1, requests := st.requests + 1 }
      else
        { st with emptyCount := st.emptyCount + 1, seq := st.seq + 1,
                  requests := st.requests + 1 }

/-- The `while (emptyCount < MAX_CONSECUTIVE_EMPTY && seq <= MAX_STUDENTS)`
loop of line 141, driven by a probe oracle indexed by the sequence
counter and by explicit fuel.  `runScan` below supplies fuel
`MAX_STUDENTS + 1`, which is shown sufficient. -/
def scanLoopFuel (probe : Nat → ProbeResponse) : Nat → ScanState → ScanState
  | 0, st => st
  | fuel + 1, st =>
      if st.emptyCount < MAX_CONSECUTIVE_EMPTY ∧ st.seq ≤ MAX_STUDENTS then
        scanLoopFuel probe fuel (scanStep (probe st.seq) st)
      else st

/-- Initial loop state: `results = []`, `seq = 1`, `emptyCount = 0`
(lines 135-137), and no requests issued yet. -/
def initScanState : ScanState := ⟨[], 1, 0, 0⟩

/-- The whole scan loop from its initial state. -/
def runScan (probe : Nat → ProbeResponse) : ScanState :=
  scanLoopFuel probe (MAX_STUDENTS + 1) initScanState

/-- The classification implicit in lines 149-160: a probe yields a found
record exactly when the response is ok (`body`), non-null, and has a
truthy (non-empty) `studentNames`. -/
def foundData : ProbeResponse → Option StudentResult
  | .body (some data) => if data.studentNames ≠ "" then some data else none
  | _ => none

/-- A probe response counts as found iff it carries a record. -/
def isFound (resp : ProbeResponse) : Bool := (foundData resp).isSome

/-- The descending-weighted-percent relation used by the sort on
line 167: the comparator `(b, a) ↦ b.weightedPercent - a.weightedPercent`
orders `a` before `b` iff `b.weightedPercent ≤ a.weightedPercent`
(ties keep discovery order, since `Array.prototype.sort` is stable). -/
def wpGE (a b : StudentResult) : Prop := b.weightedPercent ≤ a.weightedPercent

instance : DecidableRel wpGE := fun a b =>
  inferInstanceAs (Decidable (b.weightedPercent ≤ a.weightedPercent))

instance : IsTotal StudentResult wpGE :=
  ⟨fun a b => le_total b.weightedPercent a.weightedPercent⟩

instance : IsTrans StudentResult wpGE :=
  ⟨fun _ _ _ h1 h2 => le_trans h2 h1⟩

/-- Models `results.sort((a, b) => (b?.weightedPercent ?? 0) - (a?.weightedPercent ?? 0))`
(line 167), modelled as the stable sort mandated for `Array.prototype.sort`
by ECMAScript 2019 and later. -/
def sortByWeightedDesc (l : List StudentResult) : List StudentResult :=
  List.insertionSort wpGE l

/-- Outcome reported by `fetchClassResults` through its toasts. -/
inductive ClassOutcome where
  | missingInfo
  | retrieved (count : Nat)
  | noResults
deriving Repr, DecidableEq

/-- Observable result of one `fetchClassResults` call: the reported
outcome, the number of lookup requests issued, and the `classResults`
state after the call. -/
structure ClassFetchResult where
  outcome : ClassOutcome
  requests : Nat
  classResults : List StudentResult
deriving Repr, DecidableEq

/-- The probe oracle seen by the loop once the scan parameters are
fixed: the answer of the network for the identifier synthesized at each
sequence number (lines 142-148). -/
def probeOf (oracle : String → ProbeResponse) (schoolCode levelCode examYear : String) :
    Nat → ProbeResponse :=
  fun seq => oracle (synthesize schoolCode levelCode examYear seq)

/-- The function `fetchClassResults` (lines 120-194): reject with the
"Missing Information" toast when a required field is empty (JavaScript
falsiness of a string is emptiness), leaving the stored `classResults`
unchanged; otherwise run the scan, sort the accumulated records, and
store them (the zero-found case stores the empty array and reports
"No Results Found"). -/
def fetchClassResults (schoolCode levelCode examYear : String)
    (oracle : String → ProbeResponse) (prevClassResults : List StudentResult) :
    ClassFetchResult :=
  if schoolCode = "" ∨ levelCode = "" ∨ examYear = "" then
    ⟨.missingInfo, 0, prevClassResults⟩
  else
    let fin := runScan (probeOf oracle schoolCode levelCode examYear)
    let sorted := sortByWeightedDesc fin.results
    if 0 < sorted.length then ⟨.retrieved sorted.length, fin.requests, sorted⟩
    else ⟨.noResults, fin.requests, sorted⟩

/-- Inner step of the `classSubjects` accumulation (lines 202-206): add
the subject name of a mark when it is truthy (non-empty) and not yet present;
`Set` insertion preserves first-seen order. -/
def subjectFoldMark (acc : List String) (m : Subject) : List String :=
  if m.subject.subjectName ≠ "" then
    if m.subject.subjectName ∈ acc then acc else acc ++ [m.subject.subjectName]
  else acc

/-- Per-student pass of `classSubjects` over `st.rawMark` (lines 201-207). -/
def collectSubjects (acc : List String) (st : StudentResult) : List String :=
  st.rawMark.foldl subjectFoldMark acc

/-- The memo `classSubjects` (lines 197-209): first-seen deduplicated union of
subject names across all records, empty when there are no records. -/
def classSubjects (classResults : List StudentResult) : List String :=
  if classResults.length = 0 then []
  else classResults.foldl collectSubjects []

/-- First-match lookup of the mark of a student by subject name, as performed
by `student.rawMark.find(m => m?.subject?.subjectName === subject)`
(line 246). -/
def findMark (student : StudentResult) (subject : String) : Option Subject :=
  student.rawMark.find? (fun m => m.subject.subjectName == subject)

/-- Decimal rendering of a non-negative rational: `n` scaled by `10 ^ d`
with a decimal point inserted `d` digits from the right. -/
def decimalString (n : Int) (d : Nat) : String :=
  if d = 0 then toString n
  else
    let s := padStart (toString n.natAbs) (d + 1) '0'
    (if n < 0 then "-" else "") ++
      s.take (s.length - d) ++ "." ++ s.drop (s.length - d)

/-- JavaScript `String(x)` / `x + ""` for the exact-decimal rationals
produced by this program: with `d` the least number of fractional
digits making `q * 10 ^ d` an integer (`q.den ∣ 10 ^ d`, and then the
integer is `q.num * 10 ^ d / q.den`), ECMAScript prints that shortest
decimal expansion.  The fallback branch is never reached on such
values. -/
def jsNumToString (q : Rat) : String :=
  match (List.range 21).find? (fun d => q.den ∣ 10 ^ d) with
  | some d => decimalString (q.num * ((10 ^ d : Nat) : Int) / (q.den : Int)) d
  | none => toString q.num ++ "/" ++ toString q.den

/-- Models `Number.prototype.toFixed(1)` on a non-negative value: round to the
nearest tenth (ties upward, i.e. `⌊q * 10 + 1 / 2⌋`, written on the
numerator and denominator as `(20 * q.num + q.den) / (2 * q.den)`),
then print with one digit after the point. -/
def toFixed1Abs (q : Rat) : String :=
  let n := ((20 * q.num + (q.den : Int)) / (2 * (q.den : Int))).toNat
  toString (n / 10) ++ "." ++ toString (n % 10)

/-- Models `Number.prototype.toFixed(1)` (line 248): negative values render as
the negated absolute rendering. -/
def toFixed1 (q : Rat) : String :=
  if q < 0 then "-" ++ toFixed1Abs (-q) else toFixed1Abs q

/-- JavaScript `x || "-"` on an optional string field (lines 240-241):
`undefined` and the empty string both fall back to `"-"`. -/
def jsOrDash : Option String → String
  | some s => if s = "" then "-" else s
  | none => "-"

/-- One subject cell of a CSV row (lines 245-254): `"<mark>% (<grade>)"`
for a found mark, `"-"` otherwise.  (Under the typed interface of the source
`markPercent` is always a number and `letterGrade` a string, so the
`typeof` and `??` guards of lines 248-249 always take their first arm.) -/
def csvMarkCell (student : StudentResult) (subject : String) : String :=
  match findMark student subject with
  | some markObj => toFixed1 markObj.markPercent ++ "%" ++ " (" ++ markObj.letterGrade ++ ")"
  | none => "-"

/-- CSV header row (lines 223-231). -/
def csvHeaders (classResults : List StudentResult) : List String :=
  ["Index Number", "Name", "Weighted %", "Division", "Placed School",
   "Placed Combination"] ++ classSubjects classResults

/-- CSV row of one student (lines 234-257). -/
def csvRow (subjects : List String) (student : StudentResult) : List String :=
  [student.studentIndexNumber, student.studentNames,
   jsNumToString student.weightedPercent ++ "%", student.division,
   jsOrDash student.placedSchoolName, jsOrDash student.placedCombinationName] ++
  subjects.map (fun subject => csvMarkCell student subject)

/-- Wrap a cell in double quotes (line 261). -/
def csvQuote (cell : String) : String := "\"" ++ cell ++ "\""

/-- The function `exportClassResultsCSV` (lines 212-262): `none` models the
"No Data" rejection (no file is produced); otherwise the CSV text with
every cell quoted, cells joined by commas and rows by newlines. -/
def exportClassResultsCSV (classResults : List StudentResult) : Option String :=
  if classResults.length = 0 then none
  else
    some (String.intercalate "\n"
      ((csvHeaders classResults ::
          classResults.map (csvRow (classSubjects classResults))).map
        (fun row => String.intercalate "," (row.map csvQuote))))

/-- A concrete found record: one subject with raw mark `78.0` and
grade `A`, weighted percent `90`. -/
def demoStudent : StudentResult :=
  ⟨"ALICE", "123456OLC0012025", none, "2025", none, 90, "PASS", none,
   [⟨⟨"Math"⟩, 5, 78, "A", "MATH01"⟩], none, none⟩

/-- A concrete mid-scan state. -/
def demoState : ScanState := ⟨[], 3, 2, 2⟩

/-- A probe oracle whose every lookup fails at the HTTP level. -/
def demoProbe : Nat → ProbeResponse := fun _ => ProbeResponse.httpFail

/-- A probe oracle whose every lookup succeeds with a record-free body. -/
def allEmptyProbe : Nat → ProbeResponse := fun _ => ProbeResponse.body none

/-- A probe oracle: found at sequences 1..5, empty at every later one. -/
def fiveFoundProbe : Nat → ProbeResponse := fun n =>
  if n ≤ 5 then ProbeResponse.body (some demoStudent) else ProbeResponse.body none

/-- A probe oracle: found exactly at sequence 1. -/
def foundOneProbe : Nat → ProbeResponse := fun n =>
  if n = 1 then ProbeResponse.body (some demoStudent) else ProbeResponse.body none

/-- A network oracle that never finds a record. -/
def demoOracle : String → ProbeResponse := fun _ => ProbeResponse.body none

/-- A minimal found record with the given name and weighted percent. -/
def studentWP (nm : String) (wp : Rat) : StudentResult :=
  ⟨nm, "", none, "2025", none, wp, "PASS", none, [], none, none⟩

/-- A network oracle for the class `123456 / OLC / 2025`: records with
weighted percents 55, 90 and 70 are discovered at sequences 1, 2 and 3,
every later probe is empty. -/
def oracleC6 : String → ProbeResponse := fun s =>
  if s = "123456OLC0012025" then ProbeResponse.body (some (studentWP "A1" 55))
  else if s = "123456OLC0022025" then ProbeResponse.body (some (studentWP "B2" 90))
  else if s = "123456OLC0032025" then ProbeResponse.body (some (studentWP "C3" 70))
  else ProbeResponse.body none

/-- Student A of the joiner example: subjects Math and Physics. -/
def studentMathPhysics : StudentResult :=
  ⟨"STUDENT A", "IDXA", none, "2025", none, 80, "PASS", none,
   [⟨⟨"Math"⟩, 5, 70, "S", "S1"⟩, ⟨⟨"Physics"⟩, 5, 60, "D", "S2"⟩], none, none⟩

/-- Student B of the joiner example: subjects Math and Chemistry. -/
def studentMathChemistry : StudentResult :=
  ⟨"STUDENT B", "IDXB", none, "2025", none, 75, "PASS", none,
   [⟨⟨"Math"⟩, 5, 65, "D", "S1"⟩, ⟨⟨"Chemistry"⟩, 5, 55, "C", "S3"⟩], none, none⟩

/-! ## Properties of one loop iteration -/

theorem scanStep_seq (resp : ProbeResponse) (st : ScanState) :
    (scanStep resp st).seq = st.seq + 1 := by
  cases resp with
  | httpFail => rfl
  | netError => rfl
  | body d =>
      cases d with
      | none => rfl
      | some data =>
          simp only [scanStep]
          split <;> rfl

theorem scanStep_requests (resp : ProbeResponse) (st : ScanState) :
    (scanStep resp st).requests = st.requests + 1 := by
  cases resp with
  | httpFail => rfl
  | netError => rfl
  | body d =>
      cases d with
      | none => rfl
      | some data =>
          simp only [scanStep]
          split <;> rfl

theorem scanStep_of_empty (resp : ProbeResponse) (st : ScanState)
    (h : isFound resp = false) :
    scanStep resp st =
      ⟨st.results, st.seq + 1, st.emptyCount + 1, st.requests + 1⟩ := by
  cases resp with
  | httpFail => rfl
  | netError => rfl
  | body d =>
      cases d with
      | none => rfl
      | some data =>
          by_cases hd : data.studentNames ≠ ""
          · exfalso
            simp [isFound, foundData, hd] at h
          · simp only [scanStep, if_neg hd]

theorem scanStep_of_found (resp : ProbeResponse) (st : ScanState)
    (d : StudentResult) (h : foundData resp = some d) :
    scanStep resp st =
      ⟨st.results ++ [d], st.seq + 1, 0, st.requests + 1⟩ := by
  cases resp with
  | httpFail => exact absurd h (by simp [foundData])
  | netError => exact absurd h (by simp [foundData])
  | body dd =>
      cases dd with
      | none => exact absurd h (by simp [foundData])
      | some data =>
          by_cases hd : data.studentNames ≠ ""
          · have hde : data = d := by
              simpa [foundData, hd] using h
            subst hde
            simp only [scanStep, if_pos hd]
          · exfalso
            simp [foundData, hd] at h

/-! ## Loop accounting -/

theorem scanLoopFuel_cond_false (probe : Nat → ProbeResponse) :
    ∀ (fuel : Nat) (st : ScanState),
      MAX_STUDENTS + 1 - st.seq ≤ fuel →
      ¬((scanLoopFuel probe fuel st).emptyCount < MAX_CONSECUTIVE_EMPTY ∧
        (scanLoopFuel probe fuel st).seq ≤ MAX_STUDENTS) := by
  intro fuel
  induction fuel with
  | zero =>
      intro st hf
      simp only [scanLoopFuel]
      intro hc
      omega
  | succ n ih =>
      intro st hf
      simp only [scanLoopFuel]
      by_cases hc : st.emptyCount < MAX_CONSECUTIVE_EMPTY ∧ st.seq ≤ MAX_STUDENTS
      · rw [if_pos hc]
        apply ih
        rw [scanStep_seq]
        omega
      · rw [if_neg hc]
        exact hc

theorem scanLoopFuel_requests (probe : Nat → ProbeResponse) :
    ∀ (fuel : Nat) (st : ScanState),
      st.seq ≤ MAX_STUDENTS + 1 →
      (scanLoopFuel probe fuel st).seq ≤ MAX_STUDENTS + 1 ∧
      (scanLoopFuel probe fuel st).requests +
          (MAX_STUDENTS + 1 - (scanLoopFuel probe fuel st).seq) =
        st.requests + (MAX_STUDENTS + 1 - st.seq) := by
  intro fuel
  induction fuel with
  | zero =>
      intro st hs
      simp only [scanLoopFuel]
      exact ⟨hs, by simp⟩
  | succ n ih =>
      intro st hs
      simp only [scanLoopFuel]
      by_cases hc : st.emptyCount < MAX_CONSECUTIVE_EMPTY ∧ st.seq ≤ MAX_STUDENTS
      · rw [if_pos hc]
        have hstep := ih (scanStep (probe st.seq) st)
          (by rw [scanStep_seq]; omega)
        refine ⟨hstep.1, ?_⟩
        rw [hstep.2, scanStep_seq, scanStep_requests]
        have hs1000 : st.seq ≤ MAX_STUDENTS := hc.2
        unfold MAX_STUDENTS at hs1000 ⊢
        omega
      · rw [if_neg hc]
        exact ⟨hs, rfl⟩

/-- C1: the class scan loop always terminates, stopping once the
consecutive-empty counter has reached 20 or the sequence counter has
passed 1000 (the returned state falsifies the loop guard, so the
supplied fuel is never exhausted), and for every possible sequence of
probe responses it issues at most 1000 lookup requests. -/
theorem claim_C1_scan_terminates (probe : Nat → ProbeResponse) :
    (MAX_CONSECUTIVE_EMPTY ≤ (runScan probe).emptyCount ∨
      MAX_STUDENTS < (runScan probe).seq) ∧
    (runScan probe).requests ≤ MAX_STUDENTS := by
  have hcond := scanLoopFuel_cond_false probe (MAX_STUDENTS + 1) initScanState
    (by decide)
  have hreq := scanLoopFuel_requests probe (MAX_STUDENTS + 1) initScanState
    (by decide)
  rw [show scanLoopFuel probe (MAX_STUDENTS + 1) initScanState = runScan probe from rfl]
    at hcond hreq
  constructor
  · by_cases h1 : MAX_CONSECUTIVE_EMPTY ≤ (runScan probe).emptyCount
    · exact Or.inl h1
    · refine Or.inr ?_
      by_cases h2 : (runScan probe).seq ≤ MAX_STUDENTS
      · exact absurd ⟨by omega, h2⟩ hcond
      · omega
  · have h2 := hreq.2
    simp only [initScanState] at h2
    omega

theorem scanLoopFuel_empty_phase (probe : Nat → ProbeResponse) :
    ∀ (fuel s e r : Nat) (res : List StudentResult),
      (∀ n, s ≤ n → isFound (probe n) = false) →
      e ≤ MAX_CONSECUTIVE_EMPTY →
      s + (MAX_CONSECUTIVE_EMPTY - e) ≤ MAX_STUDENTS + 1 →
      MAX_CONSECUTIVE_EMPTY - e ≤ fuel →
      scanLoopFuel probe fuel ⟨res, s, e, r⟩ =
        ⟨res, s + (MAX_CONSECUTIVE_EMPTY - e), MAX_CONSECUTIVE_EMPTY,
          r + (MAX_CONSECUTIVE_EMPTY - e)⟩ := by
  intro fuel
  induction fuel with
  | zero =>
      intro s e r res hemp he hs hf
      have he20 : e = MAX_CONSECUTIVE_EMPTY := by omega
      subst he20
      simp only [scanLoopFuel, ScanState.mk.injEq, true_and, and_true]
      exact ⟨by omega, by omega⟩
  | succ n ih =>
      intro s e r res hemp he hs hf
      by_cases hlt : e < MAX_CONSECUTIVE_EMPTY
      · have hs1000 : s ≤ MAX_STUDENTS := by omega
        simp only [scanLoopFuel]
        rw [if_pos ⟨hlt, hs1000⟩]
        rw [scanStep_of_empty (probe s) ⟨res, s, e, r⟩ (hemp s le_rfl)]
        rw [ih (s + 1) (e + 1) (r + 1) res
          (fun n hn => hemp n (by omega)) (by omega) (by omega) (by omega)]
        simp only [ScanState.mk.injEq, true_and, and_true]
        exact ⟨by omega, by omega⟩
      · have he20 : e = MAX_CONSECUTIVE_EMPTY := by omega
        subst he20
        simp only [scanLoopFuel]
        rw [if_neg (by omega)]
        simp only [ScanState.mk.injEq, true_and, and_true]
        exact ⟨by omega, by omega⟩

theorem scanLoopFuel_found_phase (probe : Nat → ProbeResponse) :
    ∀ (k fuel s r : Nat) (res : List StudentResult),
      (∀ n, s ≤ n → n < s + k → isFound (probe n) = true) →
      s + k ≤ MAX_STUDENTS + 1 →
      k ≤ fuel →
      ∃ res2 : List StudentResult, res2.length = res.length + k ∧
        scanLoopFuel probe fuel ⟨res, s, 0, r⟩ =
          scanLoopFuel probe (fuel - k) ⟨res2, s + k, 0, r + k⟩ := by
  intro k
  induction k with
  | zero =>
      intro fuel s r res hfnd hs hf
      exact ⟨res, by simp, by simp⟩
  | succ k ih =>
      intro fuel s r res hfnd hs hf
      obtain ⟨n, rfl⟩ : ∃ n, fuel = n + 1 := ⟨fuel - 1, by omega⟩
      have hcond : (0 : Nat) < MAX_CONSECUTIVE_EMPTY ∧ s ≤ MAX_STUDENTS := by
        constructor
        · decide
        · omega
      have hfs : isFound (probe s) = true := hfnd s le_rfl (by omega)
      obtain ⟨d, hd⟩ : ∃ d, foundData (probe s) = some d := by
        have := Option.isSome_iff_exists.mp hfs
        simpa [isFound] using this
      have hstep := scanStep_of_found (probe s) ⟨res, s, 0, r⟩ d hd
      obtain ⟨res2, hlen, heq⟩ := ih n (s + 1) (r + 1) (res ++ [d])
        (fun m hm1 hm2 => hfnd m (by omega) (by omega)) (by omega) (by omega)
      refine ⟨res2, by simp at hlen; omega, ?_⟩
      simp only [scanLoopFuel]
      rw [if_pos hcond, hstep, heq]
      have h1 : s + 1 + k = s + (k + 1) := by omega
      have h2 : r + 1 + k = r + (k + 1) := by omega
      have h3 : n - k = n + 1 - (k + 1) := by omega
      rw [h1, h2, h3]

/-- C2 counterexample: when every probe returns an empty (record-free)
response, the scan issues exactly 20 requests — not 1000 — and it is
precisely the empty-streak ceiling that is reached. -/
theorem claim_C2_counterexample :
    (runScan allEmptyProbe).requests = 20 ∧
    (runScan allEmptyProbe).requests ≠ 1000 ∧
    (runScan allEmptyProbe).emptyCount = MAX_CONSECUTIVE_EMPTY := by
  decide

/-- C2 (amended): if every probe is empty, the scan terminates after
exactly 20 requests — probing sequences 1 through 20, so the sequence
counter ends at 21 — by reaching the empty-streak ceiling, with no
records accumulated; it never continues to sequence 1000. -/
theorem claim_C2_all_empty (probe : Nat → ProbeResponse)
    (h : ∀ n, 1 ≤ n → isFound (probe n) = false) :
    (runScan probe).requests = 20 ∧ (runScan probe).seq = 21 ∧
    (runScan probe).emptyCount = 20 ∧ (runScan probe).results = [] := by
  have heq := scanLoopFuel_empty_phase probe (MAX_STUDENTS + 1) 1 0 0 []
    (fun n hn => h n hn) (by decide) (by decide) (by decide)
  have hrun : runScan probe =
      ⟨[], 1 + (MAX_CONSECUTIVE_EMPTY - 0), MAX_CONSECUTIVE_EMPTY,
        0 + (MAX_CONSECUTIVE_EMPTY - 0)⟩ := heq
  rw [hrun]
  refine ⟨by decide, by decide, by decide, rfl⟩

/-- C2 witness: the amended statement at the concrete all-empty oracle. -/
theorem claim_C2_all_empty_witness :
    (runScan allEmptyProbe).requests = 20 ∧ (runScan allEmptyProbe).seq = 21 ∧
    (runScan allEmptyProbe).emptyCount = 20 ∧
    (runScan allEmptyProbe).results = [] :=
  claim_C2_all_empty allEmptyProbe (fun _ _ => rfl)

/-- C3: if the probes at sequences 1 through 5 are all found and every
probe thereafter is empty, the scan stops right after probing sequence
25 (the sequence counter ends at 26), having made exactly 25 requests
(hence no more than 25), with 5 accumulated records and the empty-streak
ceiling reached. -/
theorem claim_C3_five_found_then_twenty_empty (probe : Nat → ProbeResponse)
    (hfound : ∀ n, 1 ≤ n → n ≤ 5 → isFound (probe n) = true)
    (hempty : ∀ n, 6 ≤ n → isFound (probe n) = false) :
    (runScan probe).seq = 26 ∧ (runScan probe).requests = 25 ∧
    (runScan probe).emptyCount = 20 ∧ (runScan probe).results.length = 5 := by
  obtain ⟨res2, hlen, heq⟩ := scanLoopFuel_found_phase probe 5 (MAX_STUDENTS + 1) 1 0 []
    (fun n hn1 hn2 => hfound n hn1 (by omega)) (by decide) (by decide)
  have hemp := scanLoopFuel_empty_phase probe (MAX_STUDENTS + 1 - 5) (1 + 5) 0 (0 + 5) res2
    (fun n hn => hempty n (by omega)) (by decide) (by decide) (by decide)
  have hrun : runScan probe =
      ⟨res2, 1 + 5 + (MAX_CONSECUTIVE_EMPTY - 0), MAX_CONSECUTIVE_EMPTY,
        0 + 5 + (MAX_CONSECUTIVE_EMPTY - 0)⟩ := by
    rw [runScan, initScanState, heq, hemp]
  rw [hrun]
  refine ⟨?_, ?_, ?_, ?_⟩
  · show 1 + 5 + (MAX_CONSECUTIVE_EMPTY - 0) = 26
    decide
  · show 0 + 5 + (MAX_CONSECUTIVE_EMPTY - 0) = 25
    decide
  · show MAX_CONSECUTIVE_EMPTY = 20
    decide
  · show res2.length = 5
    simpa using hlen

/-- C3 witness: the statement at the concrete oracle that is found on
sequences 1..5 and empty afterwards. -/
theorem claim_C3_witness :
    (runScan fiveFoundProbe).seq = 26 ∧ (runScan fiveFoundProbe).requests = 25 ∧
    (runScan fiveFoundProbe).emptyCount = 20 ∧
    (runScan fiveFoundProbe).results.length = 5 :=
  claim_C3_five_found_then_twenty_empty fiveFoundProbe
    (fun n h1 h5 => by rw [fiveFoundProbe]; rw [if_pos h5]; rfl)
    (fun n h6 => by rw [fiveFoundProbe]; rw [if_neg (by omega)]; rfl)

/-- C4: identifier synthesis is a pure function of
(schoolCode, levelCode, examYear, sequence) — the concatenation of the
school code, the upper-cased level code, the 3-digit zero-padded
sequence and the year — and in particular
`synthesize "123456" "olc" "2025" 7 = "123456OLC0072025"` and sequence
123 yields `...1232025`. -/
theorem claim_C4_synthesize_pure :
    (∀ schoolCode levelCode examYear seq,
      synthesize schoolCode levelCode examYear seq =
        schoolCode ++ jsToUpper levelCode ++ padStart (toString seq) 3 '0' ++
          examYear) ∧
    synthesize "123456" "olc" "2025" 7 = "123456OLC0072025" ∧
    synthesize "123456" "olc" "2025" 123 = "123456OLC1232025" :=
  ⟨fun _ _ _ _ => rfl, by decide, by decide⟩

/-- C5: in every iteration, the sequence counter and the request counter
advance by exactly 1 whatever the response; an empty-classified response
(HTTP failure, thrown error, or payload without a truthy name) only
increments the consecutive-empty counter and leaves the result set
unchanged; a found response appends its record and resets the
consecutive-empty counter to 0; and whenever the loop guard holds the
loop proceeds through `scanStep` uniformly — no response kind aborts the
scan. -/
theorem claim_C5_iteration_behavior (resp : ProbeResponse) (st : ScanState)
    (probe : Nat → ProbeResponse) (fuel : Nat) :
    (scanStep resp st).seq = st.seq + 1 ∧
    (scanStep resp st).requests = st.requests + 1 ∧
    (isFound resp = false →
      scanStep resp st =
        ⟨st.results, st.seq + 1, st.emptyCount + 1, st.requests + 1⟩) ∧
    (∀ d, foundData resp = some d →
      scanStep resp st = ⟨st.results ++ [d], st.seq + 1, 0, st.requests + 1⟩) ∧
    (st.emptyCount < MAX_CONSECUTIVE_EMPTY ∧ st.seq ≤ MAX_STUDENTS →
      scanLoopFuel probe (fuel + 1) st =
        scanLoopFuel probe fuel (scanStep (probe st.seq) st)) :=
  ⟨scanStep_seq resp st, scanStep_requests resp st, scanStep_of_empty resp st,
   fun d hd => scanStep_of_found resp st d hd,
   fun hc => by simp only [scanLoopFuel]; rw [if_pos hc]⟩

/-- C5 witness: the iteration behavior at a concrete HTTP failure and a
concrete found response from a concrete mid-scan state. -/
theorem claim_C5_witness :
    scanStep ProbeResponse.httpFail demoState =
      ⟨demoState.results, demoState.seq + 1, demoState.emptyCount + 1,
        demoState.requests + 1⟩ ∧
    scanStep (ProbeResponse.body (some demoStudent)) demoState =
      ⟨demoState.results ++ [demoStudent], demoState.seq + 1, 0,
        demoState.requests + 1⟩ ∧
    scanLoopFuel demoProbe 1 demoState =
      scanLoopFuel demoProbe 0 (scanStep (demoProbe demoState.seq) demoState) :=
  ⟨(claim_C5_iteration_behavior ProbeResponse.httpFail demoState demoProbe 0).2.2.1
      (by decide),
   (claim_C5_iteration_behavior (ProbeResponse.body (some demoStudent)) demoState
      demoProbe 0).2.2.2.1 demoStudent (by decide),
   (claim_C5_iteration_behavior ProbeResponse.httpFail demoState demoProbe 0).2.2.2.2
      (by decide)⟩

/-- C7: if any of schoolCode, levelCode, examYear is empty, the class
fetch reports the missing-information condition, issues zero lookup
requests, and leaves the stored class results unchanged. -/
theorem claim_C7_missing_info (schoolCode levelCode examYear : String)
    (oracle : String → ProbeResponse) (prev : List StudentResult)
    (h : schoolCode = "" ∨ levelCode = "" ∨ examYear = "") :
    fetchClassResults schoolCode levelCode examYear oracle prev =
      ⟨ClassOutcome.missingInfo, 0, prev⟩ := by
  rw [fetchClassResults, if_pos h]

/-- C7 witness: an empty school code with the other fields present. -/
theorem claim_C7_witness :
    fetchClassResults "" "OLC" "2025" demoOracle [demoStudent] =
      ⟨ClassOutcome.missingInfo, 0, [demoStudent]⟩ :=
  claim_C7_missing_info "" "OLC" "2025" demoOracle [demoStudent] (Or.inl rfl)

/-! ## The accumulated records all carry a non-empty name -/

theorem scanStep_names (resp : ProbeResponse) (st : ScanState)
    (h : ∀ x ∈ st.results, x.studentNames ≠ "") :
    ∀ x ∈ (scanStep resp st).results, x.studentNames ≠ "" := by
  cases resp with
  | httpFail => exact h
  | netError => exact h
  | body d =>
      cases d with
      | none => exact h
      | some data =>
          by_cases hd : data.studentNames ≠ ""
          · simp only [scanStep, if_pos hd]
            intro x hx
            rcases List.mem_append.mp hx with hx | hx
            · exact h x hx
            · rw [List.mem_singleton.mp hx]
              exact hd
          · simp only [scanStep, if_neg hd]
            exact h

theorem scanLoopFuel_names (probe : Nat → ProbeResponse) :
    ∀ (fuel : Nat) (st : ScanState),
      (∀ x ∈ st.results, x.studentNames ≠ "") →
      ∀ x ∈ (scanLoopFuel probe fuel st).results, x.studentNames ≠ "" := by
  intro fuel
  induction fuel with
  | zero => intro st h; exact h
  | succ n ih =>
      intro st h
      simp only [scanLoopFuel]
      by_cases hc : st.emptyCount < MAX_CONSECUTIVE_EMPTY ∧ st.seq ≤ MAX_STUDENTS
      · rw [if_pos hc]
        exact ih _ (scanStep_names (probe st.seq) st h)
      · rw [if_neg hc]
        exact h

/-- C10: every record the scan accumulates has a non-empty
`studentNames` — records are appended only when the decoded payload has
a truthy name, so no empty-classified probe contributes. -/
theorem claim_C10_found_names_nonempty (probe : Nat → ProbeResponse) :
    ∀ x ∈ (runScan probe).results, x.studentNames ≠ "" :=
  scanLoopFuel_names probe (MAX_STUDENTS + 1) initScanState
    (by intro x hx; simp [initScanState] at hx)

/-- C10 witness: the record found by a concrete one-hit scan. -/
theorem claim_C10_witness : demoStudent.studentNames ≠ "" :=
  claim_C10_found_names_nonempty foundOneProbe demoStudent (by decide)

/-! ## Stability and sortedness of the line-167 sort -/

theorem filter_orderedInsert_of_eq (k : Rat) (x : StudentResult)
    (hx : x.weightedPercent = k) (l : List StudentResult) :
    (List.orderedInsert wpGE x l).filter (fun s => decide (s.weightedPercent = k)) =
      x :: l.filter (fun s => decide (s.weightedPercent = k)) := by
  induction l with
  | nil => simp [List.orderedInsert, hx]
  | cons y l ih =>
      by_cases h : wpGE x y
      · rw [List.orderedInsert, if_pos h, List.filter_cons]
        simp [hx]
      · rw [List.orderedInsert, if_neg h]
        have hy : y.weightedPercent ≠ k := fun hk => h ((hk.trans hx.symm).le)
        rw [List.filter_cons, List.filter_cons]
        simp [hy, ih]

theorem filter_orderedInsert_of_ne (k : Rat) (x : StudentResult)
    (hx : x.weightedPercent ≠ k) (l : List StudentResult) :
    (List.orderedInsert wpGE x l).filter (fun s => decide (s.weightedPercent = k)) =
      l.filter (fun s => decide (s.weightedPercent = k)) := by
  induction l with
  | nil => simp [List.orderedInsert, hx]
  | cons y l ih =>
      by_cases h : wpGE x y
      · rw [List.orderedInsert, if_pos h, List.filter_cons]
        simp [hx]
      · rw [List.orderedInsert, if_neg h]
        rw [List.filter_cons, List.filter_cons]
        rw [ih]

theorem sortByWeightedDesc_filter_stable (l : List StudentResult) (k : Rat) :
    (sortByWeightedDesc l).filter (fun s => decide (s.weightedPercent = k)) =
      l.filter (fun s => decide (s.weightedPercent = k)) := by
  induction l with
  | nil => rfl
  | cons x l ih =>
      show (List.orderedInsert wpGE x (List.insertionSort wpGE l)).filter _ = _
      by_cases hx : x.weightedPercent = k
      · rw [filter_orderedInsert_of_eq k x hx, List.filter_cons]
        rw [show List.insertionSort wpGE l = sortByWeightedDesc l from rfl, ih]
        simp [hx]
      · rw [filter_orderedInsert_of_ne k x hx, List.filter_cons]
        rw [show List.insertionSort wpGE l = sortByWeightedDesc l from rfl, ih]
        simp [hx]

/-- C6: the output of the scan is the accumulated found set sorted by
weighted percent descending (every adjacent pair of the output is in
weakly decreasing order), as a permutation of the accumulated set, and
stably — records with any given weighted percent keep their discovery
order; concretely, a class whose found records have weighted percents
[55, 90, 70] in discovery order is output as [90, 70, 55]. -/
theorem claim_C6_sorted_descending :
    (∀ l : List StudentResult, List.Sorted wpGE (sortByWeightedDesc l)) ∧
    (∀ l : List StudentResult, (sortByWeightedDesc l).Perm l) ∧
    (∀ (l : List StudentResult) (k : Rat),
      (sortByWeightedDesc l).filter (fun s => decide (s.weightedPercent = k)) =
        l.filter (fun s => decide (s.weightedPercent = k))) ∧
    (fetchClassResults "123456" "OLC" "2025" oracleC6 []).classResults.map
        (fun s => s.weightedPercent) = [(90 : Rat), 70, 55] :=
  ⟨fun l => List.sorted_insertionSort wpGE l,
   fun l => List.perm_insertionSort wpGE l,
   sortByWeightedDesc_filter_stable,
   by decide⟩

/-! ## The subject-column joiner -/

theorem mem_subjectFoldMark (s : String) (acc : List String) (m : Subject) :
    s ∈ subjectFoldMark acc m ↔
      s ∈ acc ∨ (m.subject.subjectName = s ∧ s ≠ "") := by
  unfold subjectFoldMark
  by_cases h1 : m.subject.subjectName ≠ ""
  · rw [if_pos h1]
    by_cases h2 : m.subject.subjectName ∈ acc
    · rw [if_pos h2]
      constructor
      · exact Or.inl
      · rintro (h | ⟨heq, hne⟩)
        · exact h
        · rw [← heq]
          exact h2
    · rw [if_neg h2]
      rw [List.mem_append, List.mem_singleton]
      constructor
      · rintro (h | h)
        · exact Or.inl h
        · refine Or.inr ⟨h.symm, ?_⟩
          rw [h]
          exact h1
      · rintro (h | ⟨heq, hne⟩)
        · exact Or.inl h
        · exact Or.inr heq.symm
  · rw [if_neg h1]
    push_neg at h1
    constructor
    · exact Or.inl
    · rintro (h | ⟨heq, hne⟩)
      · exact h
      · exact absurd (heq ▸ h1) hne

theorem mem_foldl_subjectFoldMark (s : String) :
    ∀ (marks : List Subject) (acc : List String),
      s ∈ marks.foldl subjectFoldMark acc ↔
        s ∈ acc ∨ ∃ m ∈ marks, m.subject.subjectName = s ∧ s ≠ "" := by
  intro marks
  induction marks with
  | nil => intro acc; simp
  | cons m marks ih =>
      intro acc
      rw [List.foldl_cons, ih, mem_subjectFoldMark]
      simp only [List.mem_cons]
      constructor
      · rintro ((h | h) | ⟨m', hm', hp⟩)
        · exact Or.inl h
        · exact Or.inr ⟨m, Or.inl rfl, h⟩
        · exact Or.inr ⟨m', Or.inr hm', hp⟩
      · rintro (h | ⟨m', (rfl | hm'), hp⟩)
        · exact Or.inl (Or.inl h)
        · exact Or.inl (Or.inr hp)
        · exact Or.inr ⟨m', hm', hp⟩

theorem mem_foldl_collectSubjects (s : String) :
    ∀ (rs : List StudentResult) (acc : List String),
      s ∈ rs.foldl collectSubjects acc ↔
        s ∈ acc ∨ ∃ st ∈ rs, ∃ m ∈ st.rawMark, m.subject.subjectName = s ∧ s ≠ "" := by
  intro rs
  induction rs with
  | nil => intro acc; simp
  | cons st rs ih =>
      intro acc
      rw [List.foldl_cons, ih]
      rw [show collectSubjects acc st = st.rawMark.foldl subjectFoldMark acc from rfl]
      rw [mem_foldl_subjectFoldMark]
      simp only [List.mem_cons]
      constructor
      · rintro ((h | ⟨m, hm, hp⟩) | ⟨st', hst', hrest⟩)
        · exact Or.inl h
        · exact Or.inr ⟨st, Or.inl rfl, m, hm, hp⟩
        · exact Or.inr ⟨st', Or.inr hst', hrest⟩
      · rintro (h | ⟨st', (rfl | hst'), hrest⟩)
        · exact Or.inl (Or.inl h)
        · exact Or.inl (Or.inr hrest)
        · exact Or.inr ⟨st', hst', hrest⟩

theorem nodup_subjectFoldMark (acc : List String) (m : Subject)
    (h : acc.Nodup) : (subjectFoldMark acc m).Nodup := by
  unfold subjectFoldMark
  by_cases h1 : m.subject.subjectName ≠ ""
  · rw [if_pos h1]
    by_cases h2 : m.subject.subjectName ∈ acc
    · rw [if_pos h2]
      exact h
    · rw [if_neg h2]
      simp [List.nodup_append, h, h2]
  · rw [if_neg h1]
    exact h

theorem nodup_foldl_subjectFoldMark :
    ∀ (marks : List Subject) (acc : List String),
      acc.Nodup → (marks.foldl subjectFoldMark acc).Nodup := by
  intro marks
  induction marks with
  | nil => intro acc h; exact h
  | cons m marks ih =>
      intro acc h
      rw [List.foldl_cons]
      exact ih _ (nodup_subjectFoldMark acc m h)

theorem nodup_foldl_collectSubjects :
    ∀ (rs : List StudentResult) (acc : List String),
      acc.Nodup → (rs.foldl collectSubjects acc).Nodup := by
  intro rs
  induction rs with
  | nil => intro acc h; exact h
  | cons st rs ih =>
      intro acc h
      rw [List.foldl_cons]
      exact ih _ (nodup_foldl_subjectFoldMark st.rawMark acc h)

/-- C8: the joiner is a pure projection — the column set is the
deduplicated (no repeats) union of subject names across all records
(membership holds exactly when some record carries the name), collected
in first-seen order as the concrete example shows: students with
subjects {Math, Physics} and {Math, Chemistry} yield columns
[Math, Physics, Chemistry], and the Chemistry lookup for student A is absent,
so its cell renders as the no-mark value `"-"`. -/
theorem claim_C8_result_joiner :
    (∀ rs : List StudentResult, (classSubjects rs).Nodup) ∧
    (∀ (rs : List StudentResult) (s : String),
      s ∈ classSubjects rs ↔
        ∃ st ∈ rs, ∃ m ∈ st.rawMark, m.subject.subjectName = s ∧ s ≠ "") ∧
    classSubjects [studentMathPhysics, studentMathChemistry] =
      ["Math", "Physics", "Chemistry"] ∧
    findMark studentMathPhysics "Chemistry" = none ∧
    csvMarkCell studentMathPhysics "Chemistry" = "-" := by
  refine ⟨?_, ?_, by decide, by decide, by decide⟩
  · intro rs
    cases rs with
    | nil => simp [classSubjects]
    | cons st rs =>
        rw [classSubjects, if_neg (by simp)]
        exact nodup_foldl_collectSubjects _ _ List.nodup_nil
  · intro rs s
    cases rs with
    | nil => simp [classSubjects]
    | cons st rs =>
        rw [classSubjects, if_neg (by simp)]
        rw [mem_foldl_collectSubjects]
        simp

/-- C8 witness: the membership characterization instantiated at the
example class and the column "Physics". -/
theorem claim_C8_witness :
    ∃ st ∈ [studentMathPhysics, studentMathChemistry], ∃ m ∈ st.rawMark,
      m.subject.subjectName = "Physics" ∧ "Physics" ≠ "" :=
  (claim_C8_result_joiner.2.1 [studentMathPhysics, studentMathChemistry]
    "Physics").mp (by decide)

/-- C9: exporting an empty result set is rejected (no file text is
produced), while exporting one student with one subject mark of raw
mark 78.0 and grade A produces exactly a header row and one data row
(one newline in the whole text), with every cell wrapped in double
quotes and the mark cell rendered as `"78.0% (A)"`. -/
theorem claim_C9_csv_export :
    exportClassResultsCSV [] = none ∧
    exportClassResultsCSV [demoStudent] =
      some ("\"Index Number\",\"Name\",\"Weighted %\",\"Division\",\"Placed School\",\"Placed Combination\",\"Math\"\n\"123456OLC0012025\",\"ALICE\",\"90%\",\"PASS\",\"-\",\"-\",\"78.0% (A)\"") ∧
    (("\"Index Number\",\"Name\",\"Weighted %\",\"Division\",\"Placed School\",\"Placed Combination\",\"Math\"\n\"123456OLC0012025\",\"ALICE\",\"90%\",\"PASS\",\"-\",\"-\",\"78.0% (A)\"").data.count '\n') = 1 ∧
    csvMarkCell demoStudent "Math" = "78.0% (A)" ∧
    csvQuote (csvMarkCell demoStudent "Math") = "\"78.0% (A)\"" :=
  ⟨by decide, by decide, by decide, by decide, by decide⟩
